import Mathlib

/-!
Shallow embedding of the `network-manager` module of the redshirt repository
(`src/modules/network-manager/src/lib.rs`).

The `NetworkManager` keeps a registry of network interfaces (`devices`,
a `HashMap<TIfId, Device<TIfUser>>` in the source, modelled here as an
association list with the map's one-binding-per-key semantics), where each
`Device` pairs a per-interface TCP/IP Protocol Engine
(`interface::NetInterfaceState`) with caller-supplied opaque user data.
The Protocol Engine lives in `interface.rs`, whose source is not part of the
sources available here; its operations are modelled from the spec's contract
(§4.3: open/listen a TCP socket against a requested address, failing locally
if unroutable; resolve an intra-device socket index; destructive drain of the
outbound link-layer buffer; accept inbound bytes; produce the next per-device
event) and every such definition is marked `Modelled from the spec:`.

Rust `panic!` / `.unwrap()` aborts are modelled by an `Option`-typed result
whose `none` case stands for the fatal abort, and — for the `select_all`
multiplexer — by the dedicated `PollResult.panicked` constructor.
-/

namespace Redshirt

/-- Opaque model of `std::net::SocketAddr`: for the claims only equality of
addresses matters, so an address is a natural number. -/
abbrev SocketAddr := Nat

/-- Intra-device socket index (`interface::SocketId` in the source). -/
abbrev IfSocketId := Nat

/-- Modelled from the spec: the events one device's Protocol Engine can
produce (`interface::NetInterfaceEvent`): outbound-buffer-ready (carrying the
buffered bytes) or one of the four TCP lifecycle events (carrying the
intra-device index of the socket concerned). -/
inductive NetInterfaceEvent : Type where
  | ethernetCableOut (buffer : List Nat)
  | tcpConnected (s : IfSocketId)
  | tcpClosed (s : IfSocketId)
  | tcpReadReady (s : IfSocketId)
  | tcpWriteFinished (s : IfSocketId)
  deriving DecidableEq, Repr

/-- Modelled from the spec: the state of one interface's Protocol Engine
(`interface::NetInterfaceState`, whose source file `interface.rs` is not
among the available sources).  It owns all sockets of the interface
(`sockets`, with `nextSocketIdx` the next stable index to issue), the pending
outbound link-layer buffer (`cableOut`), the inbound bytes accepted so far
(`injected`), the configured hardware address, the set of addresses the
engine can route (`routable`, deciding whether it accepts opening/listening
a TCP socket), and the queue of events it will report (`pendingEvents`). -/
structure NetInterfaceState : Type where
  macAddress : List Nat
  routable : List SocketAddr
  sockets : List IfSocketId
  nextSocketIdx : Nat
  cableOut : List Nat
  injected : List Nat
  pendingEvents : List NetInterfaceEvent
  deriving DecidableEq, Repr

/-- Modelled from the spec: a freshly built engine
(`NetInterfaceStateBuilder::default().with_ip_addr(..).with_ip_addr(..)
.with_mac_address(mac).build()`): no sockets, empty buffers, no pending
events; the two hard-coded placeholder addresses are abstracted into the
(empty) initial routable set. -/
def NetInterfaceState.fresh (mac : List Nat) : NetInterfaceState :=
  { macAddress := mac
    routable := []
    sockets := []
    nextSocketIdx := 0
    cableOut := []
    injected := []
    pendingEvents := [] }

/-- Modelled from the spec: `NetInterfaceState::build_tcp_socket` — the engine
accepts opening/listening a TCP socket iff it can route the requested
address (the result is `Err`, i.e. `none`, otherwise); on success it issues
a fresh stable socket index. -/
def NetInterfaceState.buildTcpSocket (st : NetInterfaceState) (_li : Bool)
    (addr : SocketAddr) : Option (IfSocketId × NetInterfaceState) :=
  if addr ∈ st.routable then
    some (st.nextSocketIdx,
      { st with
          sockets := st.sockets ++ [st.nextSocketIdx]
          nextSocketIdx := st.nextSocketIdx + 1 })
  else
    none

/-- Modelled from the spec: `NetInterfaceState::tcp_socket_by_id` — resolving
an intra-device socket index may legitimately fail (`none`) when the socket
no longer exists. -/
def NetInterfaceState.tcpSocketById (st : NetInterfaceState)
    (s : IfSocketId) : Option IfSocketId :=
  if s ∈ st.sockets then some s else none

/-- Modelled from the spec: `NetInterfaceState::read_ethernet_cable_out` —
destructive drain (no replay) of the queued outbound link-layer bytes;
returns an empty buffer if nothing is ready. -/
def NetInterfaceState.readEthernetCableOut (st : NetInterfaceState) :
    List Nat × NetInterfaceState :=
  (st.cableOut, { st with cableOut := [] })

/-- Modelled from the spec: `NetInterfaceState::inject_interface_data` —
accept inbound link-layer bytes. -/
def NetInterfaceState.injectInterfaceData (st : NetInterfaceState)
    (data : List Nat) : NetInterfaceState :=
  { st with injected := st.injected ++ data }

/-- Modelled from the spec: one poll of `NetInterfaceState::next_event` —
either the engine has nothing to report (`none`: the future stays pending)
or it yields its next queued event together with its state after that event
was consumed. -/
def NetInterfaceState.nextEventPoll (st : NetInterfaceState) :
    Option (NetInterfaceEvent × NetInterfaceState) :=
  match st.pendingEvents with
  | [] => none
  | e :: rest => some (e, { st with pendingEvents := rest })

/-- `Device<TIfUser>`: inner Protocol Engine state plus additional user
data. -/
structure Device (TIfUser : Type) : Type where
  inner : NetInterfaceState
  user_data : TIfUser
  deriving DecidableEq

/-- `NetworkManager<TIfId, TIfUser>`: the registry of devices.  The source's
`HashMap<TIfId, Device<TIfUser>>` is modelled as an association list; a map
holds at most one binding per key, so key-based removal removes every
binding of the key and key-based update rewrites the first (unique)
binding. -/
structure NetworkManager (TIfId TIfUser : Type) : Type where
  devices : List (TIfId × Device TIfUser)
  deriving DecidableEq

/-- `SocketId<TIfId>`: durable identifier of a socket, composite of the
interface identifier and the intra-device socket index. -/
structure SocketId (TIfId : Type) : Type where
  interface : TIfId
  socket : IfSocketId
  deriving DecidableEq, Repr

/-- `TcpSocket<'a, TIfId>`: a socket handle; `inner` is the intra-device
socket (the borrowed `interface::TcpSocket`), `device_id` the owning
interface's identifier. -/
structure TcpSocket (TIfId : Type) : Type where
  inner : IfSocketId
  device_id : TIfId
  deriving DecidableEq, Repr

/-- `TcpSocket::id`: projects the handle into its durable `SocketId`. -/
def TcpSocket.id {TIfId : Type} (s : TcpSocket TIfId) : SocketId TIfId :=
  { interface := s.device_id, socket := s.inner }

/-- `TcpSocket::close`: the source's body is empty (`//self.device.` is
commented out), so closing a socket consumes the handle and leaves the
whole `NetworkManager` state — in particular the socket inside its engine —
untouched. -/
def TcpSocket.close {TIfId TIfUser : Type} (_s : TcpSocket TIfId)
    (m : NetworkManager TIfId TIfUser) : NetworkManager TIfId TIfUser :=
  m

/-- `NetworkManagerEvent<'a, TIfId, TIfUser>`: event surfaced by
`NetworkManager::next_event`.  Only the `EthernetCableOut` shape carries the
`&'a mut TIfUser` user-data handle (and the buffered bytes); the four TCP
lifecycle shapes carry just a `TcpSocket` handle. -/
inductive NetworkManagerEvent (TIfId TIfUser : Type) : Type where
  | ethernetCableOut (id : TIfId) (u : TIfUser) (buffer : List Nat)
  | tcpConnected (s : TcpSocket TIfId)
  | tcpClosed (s : TcpSocket TIfId)
  | tcpReadReady (s : TcpSocket TIfId)
  | tcpWriteFinished (s : TcpSocket TIfId)
  deriving DecidableEq

/-- The interface identifier an event is tagged with: the explicit first
component for `EthernetCableOut`, the handle's `device_id` for the TCP
shapes. -/
def eventIfId {TIfId TIfUser : Type} :
    NetworkManagerEvent TIfId TIfUser → TIfId
  | .ethernetCableOut i _ _ => i
  | .tcpConnected s => s.device_id
  | .tcpClosed s => s.device_id
  | .tcpReadReady s => s.device_id
  | .tcpWriteFinished s => s.device_id

/-- The user-data handle an event carries, if any: per the source enum only
`EthernetCableOut(TIfId, &'a mut TIfUser, MutexGuard<'a, Vec<u8>>)` holds a
`&mut TIfUser`; the TCP shapes hold none. -/
def eventUserData {TIfId TIfUser : Type} :
    NetworkManagerEvent TIfId TIfUser → Option TIfUser
  | .ethernetCableOut _ u _ => some u
  | .tcpConnected _ => none
  | .tcpClosed _ => none
  | .tcpReadReady _ => none
  | .tcpWriteFinished _ => none

/-- The `match next_event.await.0` arms of `NetworkManager::next_event`:
wrap a device event, tagging it with the winning device's identifier; the
user-data handle is kept only by the `EthernetCableOut` arm (the other arms
bind it as `_`). -/
def tagEvent {TIfId TIfUser : Type} (id : TIfId) (u : TIfUser) :
    NetInterfaceEvent → NetworkManagerEvent TIfId TIfUser
  | .ethernetCableOut buf => .ethernetCableOut id u buf
  | .tcpConnected s => .tcpConnected { inner := s, device_id := id }
  | .tcpClosed s => .tcpClosed { inner := s, device_id := id }
  | .tcpReadReady s => .tcpReadReady { inner := s, device_id := id }
  | .tcpWriteFinished s => .tcpWriteFinished { inner := s, device_id := id }

namespace NetworkManager

variable {TIfId TIfUser : Type}

/-- `NetworkManager::new`. -/
def new (TIfId TIfUser : Type) : NetworkManager TIfId TIfUser :=
  { devices := [] }

/-- `self.devices.get(&id)` / `get_mut(&id)`: look the device up by key. -/
def findDevice [DecidableEq TIfId] (m : NetworkManager TIfId TIfUser)
    (id : TIfId) : Option (Device TIfUser) :=
  (m.devices.find? (fun p => decide (p.1 = id))).map Prod.snd

/-- Whether an interface identifier is currently registered. -/
def registered [DecidableEq TIfId] (m : NetworkManager TIfId TIfUser)
    (id : TIfId) : Bool :=
  (m.findDevice id).isSome

/-- Key-based in-place update of the (unique) binding of `id`, as done by
the source's `self.devices.get_mut(&id)` followed by mutation of that
entry. -/
def updateDevice [DecidableEq TIfId] (ds : List (TIfId × Device TIfUser))
    (id : TIfId) (f : Device TIfUser → Device TIfUser) :
    List (TIfId × Device TIfUser) :=
  match ds with
  | [] => []
  | p :: rest =>
    if p.1 = id then (p.1, f p.2) :: rest else p :: updateDevice rest id f

/-- `NetworkManager::register_interface`.  Returns the call's result paired
with the registry afterwards: on the `Entry::Occupied` early `return
Err(())` the registry is untouched; otherwise a `Device` with a freshly
built engine and the given user data is inserted under `id`. -/
def register_interface [DecidableEq TIfId] (m : NetworkManager TIfId TIfUser)
    (id : TIfId) (mac : List Nat) (user_data : TIfUser) :
    Except Unit Unit × NetworkManager TIfId TIfUser :=
  match m.findDevice id with
  | some _ => (.error (), m)
  | none =>
    (.ok (),
      { devices :=
          m.devices ++
            [(id, { inner := NetInterfaceState.fresh mac, user_data })] })

/-- `NetworkManager::unregister_interface`: `self.devices.remove(id)` — the
key's binding is removed from the map (and the removed device dropped);
nothing else happens. -/
def unregister_interface [DecidableEq TIfId]
    (m : NetworkManager TIfId TIfUser) (id : TIfId) :
    NetworkManager TIfId TIfUser :=
  { devices := m.devices.filter (fun p => decide (p.1 ≠ id)) }

/-- `NetworkManager::tcp_socket_by_id`: resolve the device by the
identifier's interface component (`?` on `get_mut`), then the intra-device
socket (`?` on the engine lookup); `none` at either step is the recoverable
not-found result. -/
def tcp_socket_by_id [DecidableEq TIfId] (m : NetworkManager TIfId TIfUser)
    (sid : SocketId TIfId) : Option (TcpSocket TIfId) := do
  let dev ← m.findDevice sid.interface
  let s ← dev.inner.tcpSocketById sid.socket
  pure { inner := s, device_id := sid.interface }

/-- The `for (device_id, device) in self.devices.iter_mut()` loop of
`build_tcp_socket`: ask each device's engine in iteration order; the first
that accepts yields the handle and is mutated in place, the rest are left
as they are.  `none` means the loop fell through to `panic!()`. -/
def buildTcpLoop [DecidableEq TIfId] (li : Bool) (addr : SocketAddr) :
    List (TIfId × Device TIfUser) →
    Option (TcpSocket TIfId × List (TIfId × Device TIfUser))
  | [] => none
  | p :: rest =>
    match p.2.inner.buildTcpSocket li addr with
    | some (s, st) =>
      some ({ inner := s, device_id := p.1 },
        (p.1, { p.2 with inner := st }) :: rest)
    | none =>
      match buildTcpLoop li addr rest with
      | some (sock, rest') => some (sock, p :: rest')
      | none => none

/-- `NetworkManager::build_tcp_socket`: returns the handle from the first
device whose engine accepts the address, together with the registry
afterwards; `none` models the unconditional `panic!()` reached when no
registered device accepts (in particular when the registry is empty). -/
def build_tcp_socket [DecidableEq TIfId] (m : NetworkManager TIfId TIfUser)
    (li : Bool) (addr : SocketAddr) :
    Option (TcpSocket TIfId × NetworkManager TIfId TIfUser) :=
  (buildTcpLoop li addr m.devices).map (fun r => (r.1, { devices := r.2 }))

/-- `NetworkManager::interface_user_data`: `none` models the
`self.devices.get_mut(id).unwrap()` panic on an unknown identifier. -/
def interface_user_data [DecidableEq TIfId]
    (m : NetworkManager TIfId TIfUser) (id : TIfId) : Option TIfUser :=
  (m.findDevice id).map (fun d => d.user_data)

/-- `NetworkManager::read_ethernet_cable_out`: drain the identified
device's outbound buffer; `none` models the `.unwrap()` panic on an unknown
identifier. -/
def read_ethernet_cable_out [DecidableEq TIfId]
    (m : NetworkManager TIfId TIfUser) (id : TIfId) :
    Option (List Nat × NetworkManager TIfId TIfUser) :=
  match m.findDevice id with
  | none => none
  | some d =>
    some (d.inner.readEthernetCableOut.1,
      { devices :=
          updateDevice m.devices id
            (fun dev => { dev with inner := dev.inner.readEthernetCableOut.2 }) })

/-- `NetworkManager::inject_interface_data`: hand inbound bytes to the
identified device's engine; `none` models the `.unwrap()` panic on an
unknown identifier. -/
def inject_interface_data [DecidableEq TIfId]
    (m : NetworkManager TIfId TIfUser) (id : TIfId) (data : List Nat) :
    Option (NetworkManager TIfId TIfUser) :=
  match m.findDevice id with
  | none => none
  | some _ =>
    some
      { devices :=
          updateDevice m.devices id
            (fun dev => { dev with inner := dev.inner.injectInterfaceData data }) }

end NetworkManager

/-- Outcome of awaiting `futures::future::select_all` over already-polled
sources: it panics when handed an empty source list; otherwise the first
ready source wins, and if no source is ready the whole point stays
pending. -/
inductive PollResult (α : Type) : Type where
  | panicked
  | pending
  | ready (a : α)
  deriving DecidableEq

/-- `future::select_all` over a list of polled sources (`none` = that source
is pending, `some a` = ready with `a`). -/
def selectAll {α : Type} (srcs : List (Option α)) : PollResult α :=
  match srcs with
  | [] => .panicked
  | _ :: _ =>
    match srcs.filterMap id with
    | [] => .pending
    | a :: _ => .ready a

namespace NetworkManager

variable {TIfId TIfUser : Type}

/-- The per-device futures built by `next_event`'s `iter_mut().map(..)`:
the source at position `i` (counting inside `rest`, which sits at offset
`i₀` of the full registry `all`) is device `i₀ + i`'s own `next_event`
mapped to carry its identifier, its user data and the registry as it stands
once that device — and only that device — has consumed the event. -/
def deviceSourcesAux [DecidableEq TIfId] (all : List (TIfId × Device TIfUser)) :
    Nat → List (TIfId × Device TIfUser) →
    List (Option (TIfId × TIfUser × NetInterfaceEvent ×
      NetworkManager TIfId TIfUser))
  | _, [] => []
  | i₀, p :: rest =>
    (p.2.inner.nextEventPoll.map (fun q =>
      (p.1, p.2.user_data, q.1,
        ({ devices := all.set i₀ (p.1, { p.2 with inner := q.2 }) } :
          NetworkManager TIfId TIfUser)))) ::
    deviceSourcesAux all (i₀ + 1) rest

/-- All device sources of one `next_event` call, in registry order. -/
def deviceSources [DecidableEq TIfId] (m : NetworkManager TIfId TIfUser) :
    List (Option (TIfId × TIfUser × NetInterfaceEvent ×
      NetworkManager TIfId TIfUser)) :=
  deviceSourcesAux m.devices 0 m.devices

/-- `NetworkManager::next_event`: `select_all` over every device's own event
source chained with one permanently-pending placeholder
(`iter::once(future::pending())`); the winning device's event is wrapped by
the `match` into a `NetworkManagerEvent`.  The result is paired with the
registry as it stands at resolution. -/
def next_event [DecidableEq TIfId] (m : NetworkManager TIfId TIfUser) :
    PollResult (NetworkManagerEvent TIfId TIfUser ×
      NetworkManager TIfId TIfUser) :=
  match selectAll (deviceSources m ++ [none]) with
  | .panicked => .panicked
  | .pending => .pending
  | .ready (id, u, ev, m') => .ready (tagEvent id u ev, m')

end NetworkManager

/-! Concrete states used by the witnesses. -/

/-- A concrete engine: one live socket (index 4), address 5 routable, two
buffered outbound bytes, one queued TCP event. -/
def engEx : NetInterfaceState :=
  { macAddress := [1, 2, 3, 4, 5, 6]
    routable := [5]
    sockets := [4]
    nextSocketIdx := 7
    cableOut := [9, 9]
    injected := []
    pendingEvents := [NetInterfaceEvent.tcpConnected 4] }

/-- A concrete device wrapping `engEx` with user data `42`. -/
def devEx : Device Nat :=
  { inner := engEx, user_data := 42 }

/-- A registry with the single interface `0` holding `devEx`. -/
def mEx : NetworkManager Nat Nat :=
  { devices := [(0, devEx)] }

/-- `engEx` after it accepted a socket bound to address `5`: index `7` was
issued. -/
def engExBuilt : NetInterfaceState :=
  { engEx with sockets := [4, 7], nextSocketIdx := 8 }

/-- `mEx` after `build_tcp_socket` succeeded on its single device. -/
def mExBuilt : NetworkManager Nat Nat :=
  { devices := [(0, { devEx with inner := engExBuilt })] }

/-- `mEx` after its outbound buffer was drained. -/
def mExDrained : NetworkManager Nat Nat :=
  { devices := [(0, { devEx with inner := { engEx with cableOut := [] } })] }

/-- A device that can route no address at all. -/
def devNo : Device Nat :=
  { inner := { engEx with routable := [] }, user_data := 1 }

/-- A two-interface registry where only interface `0` (in second position)
can route address `5`. -/
def mEx2 : NetworkManager Nat Nat :=
  { devices := [(3, devNo), (0, devEx)] }

/-- An engine whose only pending event is a TCP lifecycle event. -/
def engC5 : NetInterfaceState :=
  { macAddress := []
    routable := []
    sockets := [3]
    nextSocketIdx := 4
    cableOut := []
    injected := []
    pendingEvents := [NetInterfaceEvent.tcpConnected 3] }

/-- A single-interface registry whose device is ready with a TCP event. -/
def mC5 : NetworkManager Nat Nat :=
  { devices := [(0, { inner := engC5, user_data := 7 })] }

/-- `mC5` after its device's event was consumed. -/
def mC5popped : NetworkManager Nat Nat :=
  { devices := [(0, { inner := { engC5 with pendingEvents := [] },
                      user_data := 7 })] }

/-- First device of the two-device multiplexing example: two queued TCP
events. -/
def devA : Device Nat :=
  { inner :=
      { macAddress := []
        routable := []
        sockets := [2]
        nextSocketIdx := 3
        cableOut := []
        injected := []
        pendingEvents :=
          [NetInterfaceEvent.tcpReadReady 2, NetInterfaceEvent.tcpClosed 2] }
    user_data := 10 }

/-- Second device of the two-device multiplexing example: a queued
outbound-buffer event. -/
def devB : Device Nat :=
  { inner :=
      { macAddress := []
        routable := []
        sockets := []
        nextSocketIdx := 0
        cableOut := [8]
        injected := []
        pendingEvents := [NetInterfaceEvent.ethernetCableOut [8]] }
    user_data := 11 }

/-- Registry with two simultaneously ready devices. -/
def mC5w : NetworkManager Nat Nat :=
  { devices := [(1, devA), (2, devB)] }

/-- `mC5w` after the first device's event was consumed: the second device's
event is still queued. -/
def mC5wAfter : NetworkManager Nat Nat :=
  { devices :=
      [(1, { devA with inner :=
              { devA.inner with pendingEvents := [NetInterfaceEvent.tcpClosed 2] } }),
       (2, devB)] }

/-- A live handle onto socket `4` of interface `0` of `mEx`. -/
def sockC9 : TcpSocket Nat :=
  { inner := 4, device_id := 0 }

/-! Helper lemmas about the registry operations. -/

namespace NetworkManager

variable {TIfId TIfUser : Type}

/-- `registered` unfolds to a successful key lookup. -/
theorem registered_iff_findDevice [DecidableEq TIfId]
    (m : NetworkManager TIfId TIfUser) (id : TIfId) :
    m.registered id = true ↔ ∃ d, m.findDevice id = some d := by
  unfold registered
  exact Option.isSome_iff_exists

/-- An unregistered identifier has no binding in the registry. -/
theorem not_registered_findDevice [DecidableEq TIfId]
    (m : NetworkManager TIfId TIfUser) (id : TIfId)
    (h : m.registered id = false) : m.findDevice id = none := by
  unfold registered at h
  exact Option.not_isSome_iff_eq_none.mp (by simp [h])

/-- An unregistered identifier matches no entry of the device list. -/
theorem not_registered_forall [DecidableEq TIfId]
    (m : NetworkManager TIfId TIfUser) (id : TIfId)
    (h : m.registered id = false) :
    ∀ p ∈ m.devices, ¬ p.1 = id := by
  have hf := m.not_registered_findDevice id h
  unfold findDevice at hf
  have hn : m.devices.find? (fun p => decide (p.1 = id)) = none := by
    cases hfind : m.devices.find? (fun p => decide (p.1 = id)) with
    | none => rfl
    | some q => rw [hfind] at hf; simp at hf
  intro p hp
  simpa using List.find?_eq_none.mp hn p hp

/-- Key-based update rewrites the key's binding in place and nothing
else, at the lookup level. -/
theorem find?_updateDevice [DecidableEq TIfId]
    (ds : List (TIfId × Device TIfUser)) (id : TIfId)
    (f : Device TIfUser → Device TIfUser) :
    (updateDevice ds id f).find? (fun p => decide (p.1 = id)) =
      (ds.find? (fun p => decide (p.1 = id))).map (fun p => (p.1, f p.2)) := by
  induction ds with
  | nil => simp [updateDevice]
  | cons p rest ih =>
    by_cases hp : p.1 = id
    · simp [updateDevice, hp]
    · simp [updateDevice, hp, ih]

/-- Device lookup after a key-based update. -/
theorem findDevice_updateDevice [DecidableEq TIfId]
    (m : NetworkManager TIfId TIfUser) (id : TIfId)
    (f : Device TIfUser → Device TIfUser) :
    (NetworkManager.mk (updateDevice m.devices id f)).findDevice id =
      (m.findDevice id).map f := by
  unfold findDevice
  rw [show (NetworkManager.mk (updateDevice m.devices id f)).devices =
      updateDevice m.devices id f from rfl]
  rw [find?_updateDevice]
  cases m.devices.find? (fun p => decide (p.1 = id)) <;> simp

/-- Updating twice with an idempotent per-device function is the same as
updating once. -/
theorem updateDevice_idem [DecidableEq TIfId]
    (ds : List (TIfId × Device TIfUser)) (id : TIfId)
    (f : Device TIfUser → Device TIfUser) (hf : ∀ d, f (f d) = f d) :
    updateDevice (updateDevice ds id f) id f = updateDevice ds id f := by
  induction ds with
  | nil => rfl
  | cons p rest ih =>
    by_cases hp : p.1 = id
    · simp [updateDevice, hp, hf]
    · simp [updateDevice, hp, ih]

/-- The socket-building loop falls through to the `panic!()` exactly when
every device's engine rejects the address. -/
theorem buildTcpLoop_eq_none_iff [DecidableEq TIfId] (li : Bool)
    (addr : SocketAddr) (ds : List (TIfId × Device TIfUser)) :
    buildTcpLoop li addr ds = none ↔
      ∀ p ∈ ds, p.2.inner.buildTcpSocket li addr = none := by
  induction ds with
  | nil => simp [buildTcpLoop]
  | cons p rest ih =>
    cases hp : p.2.inner.buildTcpSocket li addr with
    | some q =>
      simp only [buildTcpLoop, hp]
      constructor
      · intro hfalse; exact absurd hfalse (by simp)
      · intro hall
        exact absurd (hall p (by simp)) (by simp [hp])
    | none =>
      cases hr : buildTcpLoop li addr rest with
      | some r =>
        simp only [buildTcpLoop, hp, hr]
        constructor
        · intro hfalse; exact absurd hfalse (by simp)
        · intro hall
          have := (ih.mpr (fun q hq => hall q (by simp [hq])))
          simp [this] at hr
      | none =>
        simp only [buildTcpLoop, hp, hr, true_iff]
        intro q hq
        rcases List.mem_cons.mp hq with hq | hq
        · rw [hq]; exact hp
        · exact ih.mp hr q hq

/-- When the socket-building loop succeeds, the handle comes from the first
device (in iteration order) whose engine accepts the address. -/
theorem buildTcpLoop_some_first [DecidableEq TIfId] (li : Bool)
    (addr : SocketAddr) (ds : List (TIfId × Device TIfUser))
    (sock : TcpSocket TIfId) (ds' : List (TIfId × Device TIfUser))
    (h : buildTcpLoop li addr ds = some (sock, ds')) :
    ∃ (i : Nat) (p : TIfId × Device TIfUser)
      (q : IfSocketId × NetInterfaceState),
      ds[i]? = some p ∧
      p.2.inner.buildTcpSocket li addr = some q ∧
      sock = { inner := q.1, device_id := p.1 } ∧
      ∀ j, j < i → ∀ r : TIfId × Device TIfUser, ds[j]? = some r →
        r.2.inner.buildTcpSocket li addr = none := by
  induction ds generalizing sock ds' with
  | nil => simp [buildTcpLoop] at h
  | cons p rest ih =>
    cases hp : p.2.inner.buildTcpSocket li addr with
    | some q =>
      simp only [buildTcpLoop, hp, Option.some.injEq, Prod.mk.injEq] at h
      refine ⟨0, p, q, by simp, hp, h.1.symm, ?_⟩
      intro j hj
      omega
    | none =>
      simp only [buildTcpLoop, hp] at h
      cases hr : buildTcpLoop li addr rest with
      | none => rw [hr] at h; simp at h
      | some r =>
        obtain ⟨rs, rd⟩ := r
        rw [hr] at h
        simp only [Option.some.injEq] at h
        cases h
        obtain ⟨i, p', q', hget, hacc, hsock, hbefore⟩ := ih _ _ hr
        refine ⟨i + 1, p', q', by simpa using hget, hacc, hsock, ?_⟩
        intro j hj r' hr'
        cases j with
        | zero =>
          simp only [List.getElem?_cons_zero, Option.some.injEq] at hr'
          rw [← hr']
          exact hp
        | succ j =>
          exact hbefore j (by omega) r' (by simpa using hr')

/-- Conversely, if some device accepts and every device before it rejects,
the loop succeeds with a handle built from that device. -/
theorem buildTcpLoop_first_acceptor [DecidableEq TIfId] (li : Bool)
    (addr : SocketAddr) (ds : List (TIfId × Device TIfUser)) (i : Nat)
    (p : TIfId × Device TIfUser) (q : IfSocketId × NetInterfaceState)
    (hp : ds[i]? = some p)
    (hacc : p.2.inner.buildTcpSocket li addr = some q)
    (hbefore : ∀ j, j < i → ∀ r, ds[j]? = some r →
      r.2.inner.buildTcpSocket li addr = none) :
    ∃ ds', buildTcpLoop li addr ds =
      some ({ inner := q.1, device_id := p.1 }, ds') := by
  induction ds generalizing i with
  | nil => simp at hp
  | cons hd rest ih =>
    cases i with
    | zero =>
      simp only [List.getElem?_cons_zero, Option.some.injEq] at hp
      rw [← hp] at hacc
      refine ⟨(hd.1, { hd.2 with inner := q.2 }) :: rest, ?_⟩
      simp [buildTcpLoop, hacc, ← hp]
    | succ i =>
      have hhd : hd.2.inner.buildTcpSocket li addr = none := by
        exact hbefore 0 (by omega) hd (by simp)
      obtain ⟨ds', hds'⟩ := ih i (by simpa using hp)
        (fun j hj r hr => hbefore (j + 1) (by omega) r (by simpa using hr))
      exact ⟨hd :: ds', by simp [buildTcpLoop, hhd, hds']⟩

/-- The per-device source list has one source per device. -/
theorem deviceSourcesAux_length [DecidableEq TIfId]
    (all : List (TIfId × Device TIfUser)) (i₀ : Nat)
    (ds : List (TIfId × Device TIfUser)) :
    (deviceSourcesAux all i₀ ds).length = ds.length := by
  induction ds generalizing i₀ with
  | nil => rfl
  | cons p rest ih => simp [deviceSourcesAux, ih]

/-- The source at position `k` is device `i₀ + k`'s own polled event,
tagged and paired with the registry where only that device advanced. -/
theorem deviceSourcesAux_getElem [DecidableEq TIfId]
    (all : List (TIfId × Device TIfUser)) (i₀ k : Nat)
    (ds : List (TIfId × Device TIfUser)) :
    (deviceSourcesAux all i₀ ds)[k]? = ds[k]?.map (fun p =>
      p.2.inner.nextEventPoll.map (fun q =>
        (p.1, p.2.user_data, q.1,
          ({ devices := all.set (i₀ + k) (p.1, { p.2 with inner := q.2 }) } :
            NetworkManager TIfId TIfUser)))) := by
  induction ds generalizing i₀ k with
  | nil => simp [deviceSourcesAux]
  | cons p rest ih =>
    cases k with
    | zero => simp [deviceSourcesAux]
    | succ k =>
      have harith : i₀ + 1 + k = i₀ + (k + 1) := by omega
      simp only [deviceSourcesAux, List.getElem?_cons_succ, ih, harith]

/-- When every device is idle, every source is unresolved. -/
theorem deviceSourcesAux_all_none [DecidableEq TIfId]
    (all : List (TIfId × Device TIfUser)) (i₀ : Nat)
    (ds : List (TIfId × Device TIfUser))
    (h : ∀ p ∈ ds, p.2.inner.nextEventPoll = none) :
    ∀ x ∈ deviceSourcesAux all i₀ ds, x = none := by
  induction ds generalizing i₀ with
  | nil => intro x hx; simp [deviceSourcesAux] at hx
  | cons p rest ih =>
    intro x hx
    simp only [deviceSourcesAux, List.mem_cons] at hx
    rcases hx with hx | hx
    · rw [hx, h p (by simp)]
      rfl
    · exact ih (i₀ + 1) (fun q hq => h q (by simp [hq])) x hx

end NetworkManager

/-- A non-empty source list never makes `select_all` panic. -/
theorem selectAll_ne_panicked {α : Type} (srcs : List (Option α))
    (h : srcs ≠ []) : selectAll srcs ≠ .panicked := by
  cases srcs with
  | nil => exact absurd rfl h
  | cons a rest =>
    unfold selectAll
    cases hf : (a :: rest).filterMap id with
    | nil => simp
    | cons b tl => simp

/-- With every source unresolved (and at least one source present),
`select_all` stays pending. -/
theorem selectAll_pending_of_all_none {α : Type} (srcs : List (Option α))
    (hall : ∀ x ∈ srcs, x = none) (hne : srcs ≠ []) :
    selectAll srcs = .pending := by
  cases srcs with
  | nil => exact absurd rfl hne
  | cons a rest =>
    unfold selectAll
    have hf : (a :: rest).filterMap id = [] :=
      List.filterMap_eq_nil_iff.mpr (fun x hx => hall x hx)
    rw [hf]

/-- A ready resolution of `select_all` is the head of the ready sources. -/
theorem selectAll_eq_ready {α : Type} (srcs : List (Option α)) (a : α)
    (h : selectAll srcs = .ready a) :
    (srcs.filterMap id).head? = some a := by
  cases srcs with
  | nil => simp [selectAll] at h
  | cons x rest =>
    unfold selectAll at h
    cases hf : (x :: rest).filterMap id with
    | nil => rw [hf] at h; simp at h
    | cons b tl =>
      rw [hf] at h
      simp only [PollResult.ready.injEq] at h
      rw [h]
      rfl

/-- The head of the ready sources is the first ready source: every source
before it is unresolved. -/
theorem head_filterMap_some {α : Type} (l : List (Option α)) (a : α)
    (h : (l.filterMap id).head? = some a) :
    ∃ k : Nat, l[k]? = some (some a) ∧
      ∀ j : Nat, j < k → l[j]? = some none := by
  induction l with
  | nil => simp at h
  | cons x rest ih =>
    cases x with
    | none =>
      simp only [List.filterMap_cons] at h
      obtain ⟨k, hk, hb⟩ := ih h
      refine ⟨k + 1, ?_, ?_⟩
      · rw [List.getElem?_cons_succ]
        exact hk
      · intro j hj
        cases j with
        | zero => simp
        | succ j =>
          rw [List.getElem?_cons_succ]
          exact hb j (by omega)
    | some b =>
      simp only [List.filterMap_cons, id_eq, List.head?_cons,
        Option.some.injEq] at h
      refine ⟨0, by simp [h], ?_⟩
      intro j hj
      omega

/-- Tagging preserves the producing device's identifier. -/
theorem eventIfId_tagEvent {TIfId TIfUser : Type} (id : TIfId) (u : TIfUser)
    (e : NetInterfaceEvent) : eventIfId (tagEvent id u e) = id := by
  cases e <;> rfl

/-- A tagged event carries either no user-data handle (the TCP shapes) or
exactly the producing device's user data (the outbound-buffer shape). -/
theorem eventUserData_tagEvent {TIfId TIfUser : Type} (id : TIfId)
    (u : TIfUser) (e : NetInterfaceEvent) :
    eventUserData (tagEvent id u e) = none ∨
    eventUserData (tagEvent id u e) = some u := by
  cases e with
  | ethernetCableOut buf => exact Or.inr rfl
  | tcpConnected s => exact Or.inl rfl
  | tcpClosed s => exact Or.inl rfl
  | tcpReadReady s => exact Or.inl rfl
  | tcpWriteFinished s => exact Or.inl rfl

/-! Claim theorems and their witnesses. -/

/-- C1: calling `register_interface` with an identifier that is already
registered returns `Err(())` and leaves the registry — the previously
registered device for that identifier and every other device, engine state
and user data included — exactly as before the call. -/
theorem register_interface_occupied_no_mutation {TIfId TIfUser : Type}
    [DecidableEq TIfId] (m : NetworkManager TIfId TIfUser) (id : TIfId)
    (mac : List Nat) (u : TIfUser) (h : m.registered id = true) :
    (m.register_interface id mac u).1 = Except.error () ∧
    (m.register_interface id mac u).2 = m := by
  obtain ⟨d, hd⟩ := (m.registered_iff_findDevice id).mp h
  simp [NetworkManager.register_interface, hd]

/-- C1 witness: duplicate registration of interface `0` on `mEx` fails and
mutates nothing. -/
theorem register_interface_occupied_no_mutation_witness :
    mEx.registered 0 = true ∧
    ((mEx.register_interface 0 [] 7).1 = Except.error () ∧
     (mEx.register_interface 0 [] 7).2 = mEx) :=
  ⟨by decide, register_interface_occupied_no_mutation mEx 0 [] 7 (by decide)⟩

/-- C2: `tcp_socket_by_id` returns `none` — a recoverable lookup failure,
never an abort — whenever the identifier's interface is not registered or
the intra-device socket index does not resolve; and after
`unregister_interface id`, any socket identifier whose interface component
is `id` resolves to `none`. -/
theorem tcp_socket_by_id_not_found {TIfId TIfUser : Type} [DecidableEq TIfId]
    (m : NetworkManager TIfId TIfUser) (sid : SocketId TIfId) (id : TIfId)
    (s : IfSocketId) :
    (m.registered sid.interface = false → m.tcp_socket_by_id sid = none) ∧
    (∀ d, m.findDevice sid.interface = some d →
      sid.socket ∉ d.inner.sockets → m.tcp_socket_by_id sid = none) ∧
    (m.unregister_interface id).tcp_socket_by_id
      { interface := id, socket := s } = none := by
  refine ⟨?_, ?_, ?_⟩
  · intro h
    have hf := m.not_registered_findDevice sid.interface h
    simp [NetworkManager.tcp_socket_by_id, hf]
  · intro d hd hs
    simp [NetworkManager.tcp_socket_by_id, hd,
      NetInterfaceState.tcpSocketById, hs]
  · have hn : ((m.unregister_interface id).devices.find?
        (fun p => decide (p.1 = id))) = none := by
      apply List.find?_eq_none.mpr
      intro x hx
      simp only [NetworkManager.unregister_interface, List.mem_filter] at hx
      simpa using of_decide_eq_true hx.2
    simp [NetworkManager.tcp_socket_by_id, NetworkManager.findDevice, hn]

/-- C2 witness: an unregistered interface and an unregistered-after-removal
interface both make the lookup return `none`. -/
theorem tcp_socket_by_id_not_found_witness :
    mEx.registered 1 = false ∧
    mEx.tcp_socket_by_id { interface := 1, socket := 4 } = none ∧
    (mEx.unregister_interface 0).tcp_socket_by_id
      { interface := 0, socket := 4 } = none :=
  ⟨by decide,
   (tcp_socket_by_id_not_found mEx { interface := 1, socket := 4 } 0 4).1
     (by decide),
   (tcp_socket_by_id_not_found mEx { interface := 1, socket := 4 } 0 4).2.2⟩

/-- C7: on an unregistered identifier, each of `interface_user_data`,
`read_ethernet_cable_out` and `inject_interface_data` hits the source's
`.unwrap()` on the failed `get_mut` lookup — the fatal abort, modelled as
the `none` result — rather than returning a recoverable not-found value. -/
theorem unknown_id_accessors_abort {TIfId TIfUser : Type} [DecidableEq TIfId]
    (m : NetworkManager TIfId TIfUser) (id : TIfId) (data : List Nat)
    (h : m.registered id = false) :
    m.interface_user_data id = none ∧
    m.read_ethernet_cable_out id = none ∧
    m.inject_interface_data id data = none := by
  have hf := m.not_registered_findDevice id h
  refine ⟨?_, ?_, ?_⟩ <;>
    simp [NetworkManager.interface_user_data,
      NetworkManager.read_ethernet_cable_out,
      NetworkManager.inject_interface_data, hf]

/-- C7 witness: identifier `9` is unknown to `mEx` and all three accessors
abort there. -/
theorem unknown_id_accessors_abort_witness :
    mEx.registered 9 = false ∧
    (mEx.interface_user_data 9 = none ∧
     mEx.read_ethernet_cable_out 9 = none ∧
     mEx.inject_interface_data 9 [1] = none) :=
  ⟨by decide, unknown_id_accessors_abort mEx 9 [1] (by decide)⟩

/-- C4: `next_event` never panics — the permanently-pending placeholder
chained after the device sources keeps `select_all`'s source list non-empty
even for an empty registry — and when the registry holds zero devices, or
every device's event source is unresolved, the suspension point stays
merely pending: the call resolves to no `NetworkManagerEvent`. -/
theorem next_event_no_panic_pending_when_idle {TIfId TIfUser : Type}
    [DecidableEq TIfId] (m : NetworkManager TIfId TIfUser) :
    m.next_event ≠ .panicked ∧
    ((∀ p ∈ m.devices, p.2.inner.nextEventPoll = none) →
      m.next_event = .pending) := by
  constructor
  · unfold NetworkManager.next_event
    cases hs : selectAll (NetworkManager.deviceSources m ++ [none]) with
    | panicked => exact absurd hs (selectAll_ne_panicked _ (by simp))
    | pending => simp
    | ready a =>
      obtain ⟨wid, wu, we, wm⟩ := a
      simp
  · intro hall
    unfold NetworkManager.next_event
    have hsel : selectAll (NetworkManager.deviceSources m ++ [none]) =
        .pending := by
      apply selectAll_pending_of_all_none
      · intro x hx
        rcases List.mem_append.mp hx with hx | hx
        · exact NetworkManager.deviceSourcesAux_all_none m.devices 0
            m.devices hall x hx
        · simpa using hx
      · simp
    rw [hsel]

/-- C4 witness: the empty registry still presents a valid, merely-pending
suspension point. -/
theorem next_event_no_panic_pending_when_idle_witness :
    (NetworkManager.new Nat Nat).next_event = .pending :=
  (next_event_no_panic_pending_when_idle (NetworkManager.new Nat Nat)).2
    (fun p hp => absurd hp (by simp [NetworkManager.new]))

/-- C5 counterexample: `mC5`'s only device resolves `next_event` with a
`TcpConnected` event; the surfaced event is tagged with the producing
interface's identifier but — the source's `match` arms bind the user-data
handle as `_` for every TCP shape — carries no handle to that device's
user data, refuting the claim that every surfaced event carries one. -/
theorem next_event_tcp_event_carries_no_user_data :
    mC5.next_event =
      PollResult.ready
        (NetworkManagerEvent.tcpConnected { inner := 3, device_id := 0 },
          mC5popped) ∧
    eventUserData
      (NetworkManagerEvent.tcpConnected { inner := 3, device_id := 0 } :
        NetworkManagerEvent Nat Nat) = none := by
  constructor
  · decide
  · rfl

/-- C5 (amended): every resolution of `next_event` yields exactly one
event, produced by the first ready device in registry order and tagged
with that device's interface identifier; the `EthernetCableOut` shape
additionally carries the handle to that device's user data while the TCP
shapes carry none; and only the winning device's engine is advanced —
every other device, in particular every other simultaneously ready one,
keeps its entry and pending events for subsequent calls. -/
theorem next_event_single_winner {TIfId TIfUser : Type} [DecidableEq TIfId]
    (m : NetworkManager TIfId TIfUser)
    (ev : NetworkManagerEvent TIfId TIfUser)
    (m' : NetworkManager TIfId TIfUser)
    (h : m.next_event = .ready (ev, m')) :
    ∃ (i : Nat) (p : TIfId × Device TIfUser) (e : NetInterfaceEvent)
      (st : NetInterfaceState),
      m.devices[i]? = some p ∧
      p.2.inner.nextEventPoll = some (e, st) ∧
      (∀ j : Nat, j < i → ∀ r : TIfId × Device TIfUser,
        m.devices[j]? = some r → r.2.inner.nextEventPoll = none) ∧
      ev = tagEvent p.1 p.2.user_data e ∧
      eventIfId ev = p.1 ∧
      (eventUserData ev = none ∨ eventUserData ev = some p.2.user_data) ∧
      m'.devices = m.devices.set i (p.1, { p.2 with inner := st }) ∧
      (∀ j : Nat, j ≠ i → m'.devices[j]? = m.devices[j]?) := by
  unfold NetworkManager.next_event at h
  cases hs : selectAll (NetworkManager.deviceSources m ++ [none]) with
  | panicked => rw [hs] at h; simp at h
  | pending => rw [hs] at h; simp at h
  | ready a =>
    obtain ⟨wid, wu, we, wm⟩ := a
    rw [hs] at h
    simp only [PollResult.ready.injEq, Prod.mk.injEq] at h
    obtain ⟨hev, hm⟩ := h
    have hhead := selectAll_eq_ready _ _ hs
    obtain ⟨k, hk, hbef⟩ := head_filterMap_some _ _ hhead
    have hlen : (NetworkManager.deviceSources m).length = m.devices.length :=
      NetworkManager.deviceSourcesAux_length m.devices 0 m.devices
    have hklt : k < (NetworkManager.deviceSources m).length := by
      by_contra hge
      push_neg at hge
      rw [List.getElem?_append_right hge] at hk
      cases hd : k - (NetworkManager.deviceSources m).length with
      | zero => rw [hd] at hk; simp at hk
      | succ n => rw [hd] at hk; simp at hk
    rw [List.getElem?_append] at hk
    rw [if_pos hklt] at hk
    have hsrc := NetworkManager.deviceSourcesAux_getElem m.devices 0 k
      m.devices
    unfold NetworkManager.deviceSources at hk
    rw [hsrc] at hk
    cases hp : m.devices[k]? with
    | none => rw [hp] at hk; simp at hk
    | some p =>
      rw [hp] at hk
      simp only [Option.map_some', Option.some.injEq] at hk
      rw [Option.map_eq_some'] at hk
      obtain ⟨q, hq, hfq⟩ := hk
      obtain ⟨e, st⟩ := q
      simp only [Prod.mk.injEq] at hfq
      obtain ⟨hid, hu, he, hwm⟩ := hfq
      refine ⟨k, p, e, st, hp, hq, ?_, ?_, ?_, ?_, ?_, ?_⟩
      · intro j hj r hr
        have hbj := hbef j (by omega)
        have hjlt : j < (NetworkManager.deviceSources m).length := by omega
        rw [List.getElem?_append] at hbj
        rw [if_pos hjlt] at hbj
        have hsrcj := NetworkManager.deviceSourcesAux_getElem m.devices 0 j
          m.devices
        unfold NetworkManager.deviceSources at hbj
        rw [hsrcj, hr] at hbj
        simp only [Option.map_some', Option.some.injEq] at hbj
        exact Option.map_eq_none'.mp hbj
      · rw [← hev, ← hid, ← hu, ← he]
      · rw [← hev, eventIfId_tagEvent]
        exact hid.symm
      · rw [← hev]
        rcases eventUserData_tagEvent wid wu we with h1 | h1
        · exact Or.inl h1
        · refine Or.inr ?_
          rw [h1, hu]
      · rw [← hm, ← hwm]
        simp
      · intro j hj
        rw [← hm, ← hwm]
        show (m.devices.set (0 + k) (p.1, { p.2 with inner := st }))[j]? =
          m.devices[j]?
        exact List.getElem?_set_ne (by omega)

/-- C5 witness: with two simultaneously ready devices, exactly one event is
surfaced — the first device's, tagged with its identifier `1` — and the
second device's event stays queued for the next call. -/
theorem next_event_single_winner_witness :
    mC5w.next_event =
      PollResult.ready
        (NetworkManagerEvent.tcpReadReady { inner := 2, device_id := 1 },
          mC5wAfter) ∧
    (∃ (i : Nat) (p : Nat × Device Nat) (e : NetInterfaceEvent)
      (st : NetInterfaceState),
      mC5w.devices[i]? = some p ∧
      p.2.inner.nextEventPoll = some (e, st) ∧
      (∀ j : Nat, j < i → ∀ r : Nat × Device Nat,
        mC5w.devices[j]? = some r → r.2.inner.nextEventPoll = none) ∧
      (NetworkManagerEvent.tcpReadReady { inner := 2, device_id := 1 } :
        NetworkManagerEvent Nat Nat) = tagEvent p.1 p.2.user_data e ∧
      eventIfId
        (NetworkManagerEvent.tcpReadReady { inner := 2, device_id := 1 } :
          NetworkManagerEvent Nat Nat) = p.1 ∧
      (eventUserData
        (NetworkManagerEvent.tcpReadReady { inner := 2, device_id := 1 } :
          NetworkManagerEvent Nat Nat) = none ∨
       eventUserData
        (NetworkManagerEvent.tcpReadReady { inner := 2, device_id := 1 } :
          NetworkManagerEvent Nat Nat) = some p.2.user_data) ∧
      mC5wAfter.devices =
        mC5w.devices.set i (p.1, { p.2 with inner := st }) ∧
      (∀ j : Nat, j ≠ i → mC5wAfter.devices[j]? = mC5w.devices[j]?)) :=
  ⟨by decide,
   next_event_single_winner mC5w
     (NetworkManagerEvent.tcpReadReady { inner := 2, device_id := 1 })
     mC5wAfter (by decide)⟩

/-- C9 (evaluation of the code at the failing input): `TcpSocket::close`
has an empty body, so closing a live handle tears nothing down in its
device's engine; resolving the closed handle's own identifier afterwards
still returns the socket instead of nothing. -/
theorem close_leaves_identifier_resolvable :
    (sockC9.close mEx).tcp_socket_by_id sockC9.id =
      some { inner := 4, device_id := 0 } := by decide

/-- C10: `unregister_interface` is total — it never aborts — and on an
identifier that is not currently registered it is a silent no-op leaving
the registry unchanged. -/
theorem unregister_unknown_id_noop {TIfId TIfUser : Type} [DecidableEq TIfId]
    (m : NetworkManager TIfId TIfUser) (id : TIfId)
    (h : m.registered id = false) :
    m.unregister_interface id = m := by
  have hall := m.not_registered_forall id h
  obtain ⟨ds⟩ := m
  unfold NetworkManager.unregister_interface
  refine congrArg NetworkManager.mk ?_
  apply List.filter_eq_self.mpr
  intro a ha
  simpa using hall a ha

/-- C3: `build_tcp_socket` asks each registered device's engine in turn
whether it can open/listen a TCP socket bound to the address and returns a
handle built from the first device that accepts; when no registered device
accepts — in particular on an empty registry — the call does not return an
error value but reaches the unconditional `panic!()`, modelled by the
`none` result. -/
theorem build_tcp_socket_first_accept_or_abort {TIfId TIfUser : Type}
    [DecidableEq TIfId] (m : NetworkManager TIfId TIfUser) (li : Bool)
    (addr : SocketAddr) :
    (m.build_tcp_socket li addr = none ↔
      ∀ p ∈ m.devices, p.2.inner.buildTcpSocket li addr = none) ∧
    ∀ sock m', m.build_tcp_socket li addr = some (sock, m') →
      ∃ (i : Nat) (p : TIfId × Device TIfUser)
        (q : IfSocketId × NetInterfaceState),
        m.devices[i]? = some p ∧
        p.2.inner.buildTcpSocket li addr = some q ∧
        sock = { inner := q.1, device_id := p.1 } ∧
        ∀ j, j < i → ∀ r : TIfId × Device TIfUser, m.devices[j]? = some r →
          r.2.inner.buildTcpSocket li addr = none := by
  constructor
  · unfold NetworkManager.build_tcp_socket
    rw [Option.map_eq_none']
    exact NetworkManager.buildTcpLoop_eq_none_iff li addr m.devices
  · intro sock m' h
    unfold NetworkManager.build_tcp_socket at h
    cases hl : NetworkManager.buildTcpLoop li addr m.devices with
    | none => rw [hl] at h; simp at h
    | some r =>
      obtain ⟨rs, rd⟩ := r
      rw [hl] at h
      simp only [Option.map_some', Option.some.injEq, Prod.mk.injEq] at h
      obtain ⟨hs, hm⟩ := h
      obtain ⟨i, p, q, hget, hacc, hsock, hbefore⟩ :=
        NetworkManager.buildTcpLoop_some_first li addr m.devices rs rd hl
      exact ⟨i, p, q, hget, hacc, hs ▸ hsock, hbefore⟩

/-- C3 witness: the empty registry aborts (no error value is returned), and
on `mEx` the handle comes from the first accepting device. -/
theorem build_tcp_socket_first_accept_or_abort_witness :
    (NetworkManager.new Nat Nat).build_tcp_socket true 5 = none ∧
    (∃ (i : Nat) (p : Nat × Device Nat)
      (q : IfSocketId × NetInterfaceState),
      mEx.devices[i]? = some p ∧
      p.2.inner.buildTcpSocket true 5 = some q ∧
      ({ inner := 7, device_id := 0 } : TcpSocket Nat) =
        { inner := q.1, device_id := p.1 } ∧
      ∀ j, j < i → ∀ r : Nat × Device Nat, mEx.devices[j]? = some r →
        r.2.inner.buildTcpSocket true 5 = none) :=
  ⟨(build_tcp_socket_first_accept_or_abort
      (NetworkManager.new Nat Nat) true 5).1.mpr (by decide),
   (build_tcp_socket_first_accept_or_abort mEx true 5).2
     { inner := 7, device_id := 0 } mExBuilt (by decide)⟩

/-- C8: when exactly one registered device's engine accepts the address,
`build_tcp_socket` succeeds, and every call against identical state — the
embedding is a pure function of the state, so repeated runs agree — returns
a handle whose interface component is that unique device's identifier. -/
theorem build_tcp_socket_unique_route {TIfId TIfUser : Type}
    [DecidableEq TIfId] (m : NetworkManager TIfId TIfUser) (li : Bool)
    (addr : SocketAddr) (i : Nat) (p : TIfId × Device TIfUser)
    (hp : m.devices[i]? = some p)
    (hacc : (p.2.inner.buildTcpSocket li addr).isSome = true)
    (huniq : ∀ j, j ≠ i → ∀ r : TIfId × Device TIfUser,
      m.devices[j]? = some r → r.2.inner.buildTcpSocket li addr = none) :
    ∃ sock m', m.build_tcp_socket li addr = some (sock, m') ∧
      ∀ sock' m'', m.build_tcp_socket li addr = some (sock', m'') →
        sock'.device_id = p.1 := by
  obtain ⟨q, hq⟩ := Option.isSome_iff_exists.mp hacc
  obtain ⟨ds', hds'⟩ := NetworkManager.buildTcpLoop_first_acceptor li addr
    m.devices i p q hp hq
    (fun j hj r hr => huniq j (by omega) r hr)
  refine ⟨{ inner := q.1, device_id := p.1 }, { devices := ds' }, ?_, ?_⟩
  · unfold NetworkManager.build_tcp_socket
    rw [hds']
    rfl
  · intro sock' m'' h
    unfold NetworkManager.build_tcp_socket at h
    rw [hds'] at h
    simp only [Option.map_some', Option.some.injEq, Prod.mk.injEq] at h
    rw [← h.1]

/-- C8 witness: in `mEx2` only the device in second position routes address
`5`, and the returned handle names its identifier `0`. -/
theorem build_tcp_socket_unique_route_witness :
    mEx2.devices[1]? = some (0, devEx) ∧
    (∃ sock m', mEx2.build_tcp_socket true 5 = some (sock, m') ∧
      ∀ sock' m'', mEx2.build_tcp_socket true 5 = some (sock', m'') →
        sock'.device_id = (((0 : Nat), devEx)).1) :=
  ⟨by decide,
   build_tcp_socket_unique_route mEx2 true 5 1 (0, devEx) (by decide)
     (by decide)
     (fun j hj => by
       match j, hj with
       | 0, _ =>
         intro r hr
         have h0 : (some ((3 : Nat), devNo) : Option (Nat × Device Nat)) =
             some r := hr
         rw [← Option.some.inj h0]
         decide
       | 1, hj => exact absurd rfl hj
       | j + 2, _ =>
         intro r hr
         rw [show mEx2.devices = [(3, devNo), (0, devEx)] from rfl] at hr
         simp only [List.getElem?_cons_succ, List.getElem?_nil] at hr
         exact absurd hr (by simp))⟩

/-- C6: `read_ethernet_cable_out` is a destructive drain of the identified
interface's pending outbound buffer: whenever a call on a registered
identifier returns a (non-empty) buffer, the immediately following call on
the same identifier, with no other activity in between, returns the empty
buffer (and leaves the registry as it was). -/
theorem read_ethernet_cable_out_drains {TIfId TIfUser : Type}
    [DecidableEq TIfId] (m : NetworkManager TIfId TIfUser) (id : TIfId)
    (buf : List Nat) (m' : NetworkManager TIfId TIfUser)
    (_hne : buf ≠ []) (h : m.read_ethernet_cable_out id = some (buf, m')) :
    m'.read_ethernet_cable_out id = some ([], m') := by
  cases hf : m.findDevice id with
  | none => simp [NetworkManager.read_ethernet_cable_out, hf] at h
  | some d =>
    have hidem : ∀ dev : Device TIfUser,
        (fun dev => { dev with
          inner := dev.inner.readEthernetCableOut.2 })
        ((fun dev => { dev with
          inner := dev.inner.readEthernetCableOut.2 }) dev) =
        (fun dev => { dev with
          inner := dev.inner.readEthernetCableOut.2 }) dev := by
      intro dev
      rfl
    simp only [NetworkManager.read_ethernet_cable_out, hf,
      Option.some.injEq, Prod.mk.injEq] at h
    obtain ⟨hbuf, hm'⟩ := h
    have hfind := NetworkManager.findDevice_updateDevice m id
      (fun dev => { dev with inner := dev.inner.readEthernetCableOut.2 })
    rw [hf] at hfind
    rw [← hm'] at *
    simp only [NetworkManager.read_ethernet_cable_out, hfind, Option.map_some]
    refine congrArg some (Prod.ext ?_ ?_)
    · rfl
    · show NetworkManager.mk _ = _
      refine congrArg NetworkManager.mk ?_
      exact NetworkManager.updateDevice_idem m.devices id _ hidem

/-- C6 witness: draining interface `0` of `mEx` yields the two buffered
bytes, and the immediately following drain yields the empty buffer. -/
theorem read_ethernet_cable_out_drains_witness :
    mEx.read_ethernet_cable_out 0 = some ([9, 9], mExDrained) ∧
    mExDrained.read_ethernet_cable_out 0 = some ([], mExDrained) :=
  ⟨by decide, read_ethernet_cable_out_drains mEx 0 [9, 9] mExDrained
    (by decide) (by decide)⟩

/-- C10 witness: removing the unknown identifier `9` from `mEx` changes
nothing. -/
theorem unregister_unknown_id_noop_witness :
    mEx.registered 9 = false ∧ mEx.unregister_interface 9 = mEx :=
  ⟨by decide, unregister_unknown_id_noop mEx 9 (by decide)⟩

end Redshirt
